import Mathlib

/-!
Verification of the CFO Pluggy API relay (src/main.py).

The service is embedded shallowly:
* JSON values are the inductive type `JVal`; Python truthiness is `truthy`.
* Numbers are modelled as exact rationals (`ℚ`); the sign/sum properties
  proved here hold for IEEE floats as well, since each is closed under
  the single operations the code performs.
* Python expressions `a or b` become `pyOr`; `dict.get` becomes `jget`
  (`none` models the `AttributeError` raised by `.get` on a non-dict);
  `float(x)` becomes `pyFloat` (`none` models `TypeError`/`ValueError`).
* Fallible code returns `Option`/`Except`; the HTTP loop of the paginated
  fetchers is modelled with an explicit upstream function and fuel.
-/

/-- A JSON value as produced by `resp.json()` in the source. -/
inductive JVal where
  | null : JVal
  | bool : Bool → JVal
  | num : ℚ → JVal
  | str : String → JVal
  | arr : List JVal → JVal
  | obj : List (String × JVal) → JVal

/-- Python truthiness of a JSON value, as used by `or`, `if cursor:` and
`if not token:` in src/main.py. -/
def truthy : JVal → Bool
  | .null => false
  | .bool b => b
  | .num q => decide (q ≠ 0)
  | .str s => decide (s ≠ "")
  | .arr xs => !xs.isEmpty
  | .obj fs => !fs.isEmpty

/-- The Python expression `a or b`: `a` when truthy, else `b`. -/
def pyOr (a b : JVal) : JVal := if truthy a then a else b

/-- First-match lookup in an object's field list; `JVal.null` models the
`None` default of Python's `dict.get`. -/
def lookupField : List (String × JVal) → String → JVal
  | [], _ => .null
  | (k', v) :: rest, k => if k' = k then v else lookupField rest k

/-- The Python call `v.get(k)`: defined only when `v` is a dict (`none`
models the `AttributeError` raised otherwise), yielding the field or
`JVal.null` when the key is absent. -/
def jget : JVal → String → Option JVal
  | .obj fs, k => some (lookupField fs k)
  | _, _ => none

/-- Digit list to natural number, most significant first. -/
def digitsToNat (ds : List Char) : Nat :=
  ds.foldl (fun n c => n * 10 + (c.toNat - 48)) 0

/-- Python `float(s)` on a plain decimal string literal: optional sign,
integer digits, optional decimal point and fraction digits, at least one
digit in total.  (Exponents, `inf`, `nan` and surrounding whitespace do
not occur in this development.) `none` models `ValueError`. -/
def pyFloatChars (cs : List Char) : Option ℚ :=
  let signed : ℚ × List Char :=
    match cs with
    | '-' :: r => (-1, r)
    | '+' :: r => (1, r)
    | r => (1, r)
  let sign := signed.1
  let rest := signed.2
  let intDigits := rest.takeWhile Char.isDigit
  let rest2 := rest.dropWhile Char.isDigit
  match rest2 with
  | [] =>
    if intDigits.isEmpty then none
    else some (sign * (digitsToNat intDigits : ℚ))
  | '.' :: r3 =>
    let fracDigits := r3.takeWhile Char.isDigit
    if (r3.dropWhile Char.isDigit).isEmpty then
      if intDigits.isEmpty && fracDigits.isEmpty then none
      else some (sign *
        ((digitsToNat intDigits : ℚ) +
          (digitsToNat fracDigits : ℚ) / (10 ^ fracDigits.length)))
    else none
  | _ => none

/-- Python `float(x)` coercion of a JSON value: numbers pass through,
booleans become 0/1, strings are parsed; `none` models the
`TypeError`/`ValueError` raised on `None`, lists and dicts and on
non-numeric strings. -/
def pyFloat : JVal → Option ℚ
  | .num q => some q
  | .bool b => some (if b then 1 else 0)
  | .str s => pyFloatChars s.toList
  | _ => none

/-- The per-account balance coercion of `get_snapshot`
(src/main.py lines 224-229):
`balance = acc.get("balance") or {}`; if `balance` is a dict,
`valor = balance.get("current") or balance.get("available") or 0`,
else `valor = balance or 0`; the contribution is `float(valor)`.
`none` models the exception path (non-dict account record, or a truthy
non-coercible `valor`). -/
def accountBalance (acc : JVal) : Option ℚ :=
  match jget acc "balance" with
  | none => none
  | some b =>
    let balance := pyOr b (.obj [])
    match balance with
    | .obj fs =>
      pyFloat (pyOr (lookupField fs "current")
        (pyOr (lookupField fs "available") (.num 0)))
    | _ => pyFloat (pyOr balance (.num 0))

/-- The running-sum loop `saldo_total += float(valor)` over the account
list (src/main.py lines 222-229), threading the accumulator; `none`
models an exception aborting the whole snapshot. -/
def saldoTotal : List JVal → ℚ → Option ℚ
  | [], s => some s
  | acc :: rest, s =>
    match accountBalance acc with
    | none => none
    | some v => saldoTotal rest (s + v)

/-- The transaction amount coercion `float(tx.get("amount") or 0)`
(src/main.py line 238). -/
def txAmount (tx : JVal) : Option ℚ :=
  match jget tx "amount" with
  | none => none
  | some a => pyFloat (pyOr a (.num 0))

/-- One iteration of the inflow/outflow classification of
src/main.py lines 239-242: a positive amount is added to
`total_entradas`, a negative one to `total_saidas`, zero to neither. -/
def fluxoStep (es : ℚ × ℚ) (a : ℚ) : ℚ × ℚ :=
  if 0 < a then (es.1 + a, es.2)
  else if a < 0 then (es.1, es.2 + a)
  else es

/-- The loop over transactions accumulating
`(total_entradas, total_saidas)` (src/main.py lines 237-242). -/
def fluxoTotais : List JVal → ℚ × ℚ → Option (ℚ × ℚ)
  | [], es => some es
  | tx :: rest, es =>
    match txAmount tx with
    | none => none
    | some a => fluxoTotais rest (fluxoStep es a)

/-- The `fluxo_geral` object of the snapshot (src/main.py lines 248-252). -/
structure FluxoGeral where
  total_entradas : ℚ
  total_saidas : ℚ
  saldo_movimento : ℚ

/-- The snapshot object built by `get_snapshot`
(src/main.py lines 244-261). -/
structure Snapshot where
  user_id : String
  item_id : String
  saldo_total_contas : ℚ
  fluxo_geral : FluxoGeral
  qtd_contas : Nat
  qtd_transacoes : Nat
  raw_accounts : List JVal
  raw_transactions : List JVal

/-- The aggregation core of `get_snapshot` (src/main.py lines 222-261),
taking the already-fetched account and transaction lists (the spec's
`build_snapshot(accounts, transactions)` contract).  `none` models the
exception path that the endpoint maps to an HTTP 500. -/
def build_snapshot (user_id item_id : String)
    (accounts transactions : List JVal) : Option Snapshot :=
  match saldoTotal accounts 0 with
  | none => none
  | some st =>
    match fluxoTotais transactions (0, 0) with
    | none => none
    | some es =>
      some ⟨user_id, item_id, st, ⟨es.1, es.2, es.1 + es.2⟩,
        accounts.length, transactions.length, accounts, transactions⟩

/-- The `/health` endpoint body (src/main.py lines 65-67). -/
def health : JVal := .obj [("status", .str "ok")]

/-- Truthiness of the value of an optional environment variable
(`os.getenv` yields `None` when unset): the `not PLUGGY_CLIENT_ID`
check is false exactly when the variable is set to a non-empty string. -/
def strOptTruthy : Option String → Bool
  | none => false
  | some s => decide (s ≠ "")

/-- An upstream HTTP response: status code and parsed JSON body. -/
structure HttpResponse where
  statusCode : Nat
  body : JVal

/-- The outbound `POST /auth` request issued by
`get_pluggy_access_token` (its payload fields). -/
structure AuthCall where
  clientId : String
  clientSecret : String

/-- The outbound `POST /connect_token` request issued by
`create_connect_token` (its payload fields). -/
structure ConnectCall where
  clientId : String
  clientSecret : String
  userId : String

/-- The function `get_pluggy_access_token` (src/main.py lines 19-43), with the
process-wide credentials and the network abstracted as parameters.
The first component is the list of network calls actually issued, the
second the outcome: `Except.error` models a raised `RuntimeError`
(only the message prefix is kept; the source interpolates the upstream
status and text). -/
def get_pluggy_access_token (cid csec : Option String)
    (post : AuthCall → HttpResponse) :
    List AuthCall × Except String JVal :=
  if strOptTruthy cid = false || strOptTruthy csec = false then
    ([], .error "PLUGGY_CLIENT_ID ou PLUGGY_CLIENT_SECRET não configurados")
  else
    let req : AuthCall := ⟨cid.getD "", csec.getD ""⟩
    let resp := post req
    if 400 ≤ resp.statusCode then
      ([req], .error "Erro ao autenticar na Pluggy")
    else
      match jget resp.body "accessToken" with
      | none => ([req], .error "AttributeError")
      | some token =>
        if truthy token then ([req], .ok token)
        else ([req], .error "Resposta de auth da Pluggy não trouxe accessToken")

/-- The function `create_connect_token` (src/main.py lines 87-110), with credentials
and network abstracted as in `get_pluggy_access_token`; on success the
parsed response body is returned as-is. -/
def create_connect_token (cid csec : Option String) (user_id : String)
    (post : ConnectCall → HttpResponse) :
    List ConnectCall × Except String JVal :=
  if strOptTruthy cid = false || strOptTruthy csec = false then
    ([], .error "PLUGGY_CLIENT_ID ou PLUGGY_CLIENT_SECRET não configurados")
  else
    let req : ConnectCall := ⟨cid.getD "", csec.getD "", user_id⟩
    let resp := post req
    if 400 ≤ resp.statusCode then
      ([req], .error "Erro ao criar connect token")
    else
      ([req], .ok resp.body)

/-- The declared response model of `POST /pluggy/connect-token`
(src/main.py lines 78-80): `connectToken` is declared as a string. -/
structure ConnectTokenResponse where
  connectToken : String
  raw : JVal

/-- The `connectToken` value computed by `api_create_connect_token`
(src/main.py line 201): `data.get("accessToken") or
data.get("connectToken")`.  `none` models the `AttributeError` on a
non-dict payload. -/
def connectTokenValue (data : JVal) : Option JVal :=
  match jget data "accessToken" with
  | none => none
  | some a => if truthy a then some a else jget data "connectToken"

/-- One page response of the paginated listing endpoints: the HTTP
status, the `results` array of the parsed body (defaulting to `[]` when
absent, as in `data.get("results", [])`) and the raw `nextCursor` field
(`JVal.null` when absent, as `data.get("nextCursor")` yields `None`). -/
structure PageResponse where
  statusCode : Nat
  results : List JVal
  nextCursor : JVal

/-- Outcome of a paginated fetch: the accumulated records, a raised
`RuntimeError` carrying the offending status code, or fuel exhaustion
(the `while True` loop still running after the given number of
iterations). -/
inductive FetchResult where
  | ok : List JVal → FetchResult
  | err : Nat → FetchResult
  | fuelOut : FetchResult

/-- The `while True` pagination loop shared by `fetch_accounts_by_item`
(src/main.py lines 128-146) and `fetch_transactions_by_item`
(lines 165-183).  `server` abstracts one upstream GET: it maps the
cursor parameter of the request (`none` on the first request, where
`params` has no `cursor` key) to the page response; the fixed `itemId`,
`pageSize` and timeout of the request do not influence the loop and are
abstracted into `server`.  `fuel` bounds the number of iterations
considered; the loop itself has no such bound. -/
def fetch_loop (server : Option JVal → PageResponse) :
    Nat → Option JVal → List JVal → FetchResult
  | 0, _, _ => .fuelOut
  | fuel + 1, cursor, acc =>
    let resp := server cursor
    if 400 ≤ resp.statusCode then .err resp.statusCode
    else
      let acc' := acc ++ resp.results
      let c := resp.nextCursor
      if truthy c then fetch_loop server fuel (some c) acc'
      else .ok acc'

/-- The function `fetch_accounts_by_item` (src/main.py lines 113-146): the pagination
loop started with no cursor and an empty accumulator. -/
def fetch_accounts_by_item (server : Option JVal → PageResponse)
    (fuel : Nat) : FetchResult :=
  fetch_loop server fuel none []

/-- The function `fetch_transactions_by_item` (src/main.py lines 149-183): the same
loop (the two fetchers differ only in URL, page size and timeout, which
are abstracted into `server`). -/
def fetch_transactions_by_item (server : Option JVal → PageResponse)
    (fuel : Nat) : FetchResult :=
  fetch_loop server fuel none []

/-- The relation `Serves server cursor pages`: starting from the request with cursor
parameter `cursor`, the upstream serves exactly the finite chain
`pages` of successful responses, each non-final response carrying a
truthy `nextCursor` leading to the next, and the final one a falsy
`nextCursor`.  This is the "finite upstream cursor sequence" of the
specification. -/
inductive Serves (server : Option JVal → PageResponse) :
    Option JVal → List PageResponse → Prop where
  | last : ∀ c, (server c).statusCode < 400 →
      truthy (server c).nextCursor = false →
      Serves server c [server c]
  | step : ∀ c ps, (server c).statusCode < 400 →
      truthy (server c).nextCursor = true →
      Serves server (some (server c).nextCursor) ps →
      Serves server c (server c :: ps)

/-- The relation `ServesErr server cursor k s`: starting from the request with cursor
parameter `cursor`, the upstream serves `k` successful pages with
truthy cursors and then answers with HTTP status `s ≥ 400`. -/
inductive ServesErr (server : Option JVal → PageResponse) :
    Option JVal → Nat → Nat → Prop where
  | here : ∀ c, 400 ≤ (server c).statusCode →
      ServesErr server c 0 (server c).statusCode
  | step : ∀ c k s, (server c).statusCode < 400 →
      truthy (server c).nextCursor = true →
      ServesErr server (some (server c).nextCursor) k s →
      ServesErr server c (k + 1) s

/-- The cursor parameter of request number `i` to `countServer`: the
first request carries no cursor, request `i ≥ 1` carries a JSON array
of length `i` (a truthy cursor value encoding the page index). -/
def unitCursor (i : Nat) : Option JVal :=
  if i = 0 then none else some (.arr (List.replicate i .null))

/-- A well-behaved upstream with exactly `n` pages (all successful,
with empty `results`), used to exhibit arbitrarily long terminating
cursor chains: page `i` points to page `i + 1` while `i + 1 < n`. -/
def countServer (n : Nat) : Option JVal → PageResponse :=
  fun c =>
    let i : Nat :=
      match c with
      | some (.arr l) => l.length
      | _ => 0
    ⟨200, [],
      if i + 1 < n then .arr (List.replicate (i + 1) .null) else .null⟩

/-- A concrete two-page upstream: the first page returns records
`"A", "B"` and the cursor `"page2"`, the second returns `"C"` and no
cursor. -/
def serverEx : Option JVal → PageResponse := fun c =>
  match c with
  | none => ⟨200, [.str "A", .str "B"], .str "page2"⟩
  | some (.str "page2") => ⟨200, [.str "C"], .null⟩
  | _ => ⟨500, [], .null⟩

/-- A concrete upstream whose first page returns records `"A", "B"`
and a cursor, and whose second page fails with HTTP 503. -/
def serverErrEx : Option JVal → PageResponse := fun c =>
  match c with
  | none => ⟨200, [.str "A", .str "B"], .str "page2"⟩
  | _ => ⟨503, [], .null⟩

/-- A concrete transaction list: one inflow of 10 and one outflow
of 3. -/
def txsEx : List JVal :=
  [.obj [("amount", .num 10)], .obj [("amount", .num (-3))]]

/-- The snapshot the aggregation builds from no accounts and `txsEx`. -/
def snapEx : Snapshot :=
  ⟨"u", "i", 0, ⟨10, -3, 7⟩, 0, 2, [], txsEx⟩

/-- An account whose `balance` is the truthy non-numeric string
`"abc"`: `float("abc")` raises `ValueError`. -/
def accBadStr : JVal := .obj [("balance", .str "abc")]

/-- An account whose `balance` is the truthy list `[1]`:
`float([1])` raises `TypeError`. -/
def accBadList : JVal := .obj [("balance", .arr [.num 1])]

/-! ### Helper lemmas -/

/-- Running the pagination loop against a finite successful cursor chain
yields the accumulator followed by the concatenation of all pages'
`results`, for any sufficient fuel. -/
theorem fetch_loop_serves {server : Option JVal → PageResponse}
    {c : Option JVal} {pages : List PageResponse}
    (h : Serves server c pages) :
    ∀ fuel acc, pages.length ≤ fuel →
      fetch_loop server fuel c acc =
        .ok (acc ++ (pages.map PageResponse.results).flatten) := by
  induction h with
  | last c h1 h2 =>
    intro fuel acc hfuel
    cases fuel with
    | zero => simp at hfuel
    | succ f => simp [fetch_loop, not_le.mpr h1, h2]
  | step c ps h1 h2 _ ih =>
    intro fuel acc hfuel
    cases fuel with
    | zero => simp at hfuel
    | succ f =>
      have hf : ps.length ≤ f := by
        simpa using hfuel
      simp [fetch_loop, not_le.mpr h1, h2,
        ih f (acc ++ (server c).results) hf]

/-- Running the pagination loop against a cursor chain that fails at
page `k + 1` yields the error, for any sufficient fuel. -/
theorem fetch_loop_servesErr {server : Option JVal → PageResponse}
    {c : Option JVal} {k s : Nat}
    (h : ServesErr server c k s) :
    ∀ fuel acc, k < fuel →
      fetch_loop server fuel c acc = .err s := by
  induction h with
  | here c h1 =>
    intro fuel acc hfuel
    cases fuel with
    | zero => simp at hfuel
    | succ f => simp [fetch_loop, h1]
  | step c k s h1 h2 _ ih =>
    intro fuel acc hfuel
    cases fuel with
    | zero => simp at hfuel
    | succ f =>
      have hf : k < f := by omega
      simp [fetch_loop, not_le.mpr h1, h2,
        ih f (acc ++ (server c).results) hf]

/-- The upstream `countServer n`, queried with the cursor of request `i`, answers
success with the next counting cursor (or none on the last page). -/
theorem countServer_unitCursor (n i : Nat) :
    countServer n (unitCursor i) =
      ⟨200, [],
        if i + 1 < n then .arr (List.replicate (i + 1) .null)
        else .null⟩ := by
  cases i with
  | zero => simp [countServer, unitCursor]
  | succ j => simp [countServer, unitCursor]

/-- From request `i` on, `countServer n` serves a finite successful
chain of `k + 1` pages, provided `i + k + 1 = n`. -/
theorem countServer_serves :
    ∀ k i n : Nat, i + k + 1 = n →
      ∃ pages : List PageResponse,
        Serves (countServer n) (unitCursor i) pages ∧
          pages.length = k + 1 := by
  intro k
  induction k with
  | zero =>
    intro i n hn
    refine ⟨[countServer n (unitCursor i)], ?_, rfl⟩
    apply Serves.last
    · simp [countServer_unitCursor]
    · rw [countServer_unitCursor]
      have : ¬ i + 1 < n := by omega
      simp [this, truthy]
  | succ k ih =>
    intro i n hn
    obtain ⟨ps, hps, hlen⟩ := ih (i + 1) n (by omega)
    refine ⟨countServer n (unitCursor i) :: ps, ?_, by simp [hlen]⟩
    apply Serves.step
    · simp [countServer_unitCursor]
    · rw [countServer_unitCursor]
      have : i + 1 < n := by omega
      simp [this, truthy]
    · have hcur :
          some (countServer n (unitCursor i)).nextCursor =
            unitCursor (i + 1) := by
        rw [countServer_unitCursor]
        have : i + 1 < n := by omega
        simp [this, unitCursor]
      rw [hcur]
      exact hps

/-- The accumulator-threaded balance sum, when it succeeds, is the
start value plus the sum of the coerced per-account balances. -/
theorem saldoTotal_sound :
    ∀ (l : List JVal) (s q : ℚ), saldoTotal l s = some q →
      q = s + (l.map (fun a => (accountBalance a).getD 0)).sum := by
  intro l
  induction l with
  | nil =>
    intro s q h
    simp [saldoTotal] at h
    simp [h]
  | cons a rest ih =>
    intro s q h
    cases ha : accountBalance a with
    | none => simp [saldoTotal, ha] at h
    | some v =>
      simp only [saldoTotal, ha] at h
      have hq := ih (s + v) q h
      simp [hq, ha]
      ring

/-- The balance sum succeeds exactly when every account's balance
coercion does. -/
theorem saldoTotal_isSome :
    ∀ (l : List JVal) (s : ℚ), (saldoTotal l s).isSome = true ↔
      ∀ a ∈ l, (accountBalance a).isSome = true := by
  intro l
  induction l with
  | nil => intro s; simp [saldoTotal]
  | cons a rest ih =>
    intro s
    cases ha : accountBalance a with
    | none => simp [saldoTotal, ha]
    | some v => simp [saldoTotal, ha, ih (s + v)]

/-- One classification step never decreases the inflow accumulator and
never increases the outflow accumulator. -/
theorem fluxoStep_mono (es : ℚ × ℚ) (a : ℚ) :
    es.1 ≤ (fluxoStep es a).1 ∧ (fluxoStep es a).2 ≤ es.2 := by
  unfold fluxoStep
  split
  · rename_i h
    exact ⟨by show es.1 ≤ es.1 + a; linarith, le_refl _⟩
  · split
    · rename_i h
      exact ⟨le_refl _, by show es.2 + a ≤ es.2; linarith⟩
    · exact ⟨le_refl _, le_refl _⟩

/-- The transaction loop, when it succeeds, never decreases the inflow
accumulator and never increases the outflow accumulator. -/
theorem fluxoTotais_bounds :
    ∀ (l : List JVal) (es es' : ℚ × ℚ), fluxoTotais l es = some es' →
      es.1 ≤ es'.1 ∧ es'.2 ≤ es.2 := by
  intro l
  induction l with
  | nil =>
    intro es es' h
    simp [fluxoTotais] at h
    simp [← h]
  | cons tx rest ih =>
    intro es es' h
    cases ha : txAmount tx with
    | none => simp [fluxoTotais, ha] at h
    | some a =>
      simp only [fluxoTotais, ha] at h
      have h1 := fluxoStep_mono es a
      have h2 := ih (fluxoStep es a) es' h
      exact ⟨le_trans h1.1 h2.1, le_trans h2.2 h1.2⟩

/-- The transaction loop succeeds exactly when every transaction's
amount coercion does. -/
theorem fluxoTotais_isSome :
    ∀ (l : List JVal) (es : ℚ × ℚ), (fluxoTotais l es).isSome = true ↔
      ∀ t ∈ l, (txAmount t).isSome = true := by
  intro l
  induction l with
  | nil => intro es; simp [fluxoTotais]
  | cons tx rest ih =>
    intro es
    cases ha : txAmount tx with
    | none => simp [fluxoTotais, ha]
    | some a => simp [fluxoTotais, ha, ih (fluxoStep es a)]

/-! ### Claim theorems -/

/-- C1: for every finite sequence of upstream pages (a successful cursor
chain `pages` from the initial cursor-less request), the paginated fetch
(`fetch_accounts_by_item` / `fetch_transactions_by_item`) returns the
concatenation of the `results` arrays of all pages in request order. -/
theorem c1_fetch_concatenates_pages
    (server : Option JVal → PageResponse) (pages : List PageResponse)
    (hserves : Serves server none pages) (fuel : Nat)
    (hfuel : pages.length ≤ fuel) :
    fetch_accounts_by_item server fuel =
        .ok (pages.map PageResponse.results).flatten ∧
      fetch_transactions_by_item server fuel =
        .ok (pages.map PageResponse.results).flatten := by
  constructor <;>
    simpa [fetch_accounts_by_item, fetch_transactions_by_item] using
      fetch_loop_serves hserves fuel [] hfuel

/-- Witness for C1: against the concrete upstream `serverEx` serving
pages `[A, B]` then `[C]` then no cursor, the fetch returns
`[A, B, C]`. -/
theorem c1_witness :
    Serves serverEx none [serverEx none, serverEx (some (.str "page2"))] ∧
      [serverEx none, serverEx (some (.str "page2"))].length ≤ 2 ∧
      fetch_accounts_by_item serverEx 2 =
        .ok [.str "A", .str "B", .str "C"] := by
  have h2 : Serves serverEx (some (.str "page2"))
      [serverEx (some (.str "page2"))] := by
    apply Serves.last
    · simp [serverEx]
    · simp [serverEx, truthy]
  have hs : Serves serverEx none
      [serverEx none, serverEx (some (.str "page2"))] := by
    apply Serves.step
    · simp [serverEx]
    · simp [serverEx, truthy]
    · exact h2
  refine ⟨hs, by simp, ?_⟩
  have := (c1_fetch_concatenates_pages serverEx _ hs 2 (by simp)).1
  simpa [serverEx] using this

/-- C5: if any page request during a paginated fetch returns a
non-success (≥ 400) status — after `k` successful pages — the whole
fetch fails with that error; the result is `FetchResult.err s`, which
carries no records, so the already-accumulated pages are discarded and
no partial sequence reaches the caller. -/
theorem c5_error_aborts_fetch
    (server : Option JVal → PageResponse) (k s : Nat)
    (hserr : ServesErr server none k s) (fuel : Nat) (hfuel : k < fuel) :
    fetch_accounts_by_item server fuel = .err s ∧
      fetch_transactions_by_item server fuel = .err s := by
  constructor <;>
    simpa [fetch_accounts_by_item, fetch_transactions_by_item] using
      fetch_loop_servesErr hserr fuel [] hfuel

/-- Witness for C5: against `serverErrEx` (page 1 returns `[A, B]` with
a cursor, page 2 returns HTTP 503), the fetch yields the 503 error and
not the partial `[A, B]`. -/
theorem c5_witness :
    ServesErr serverErrEx none 1 503 ∧ 1 < 2 ∧
      fetch_accounts_by_item serverErrEx 2 = .err 503 := by
  have h1 : ServesErr serverErrEx (some (.str "page2")) 0 503 := by
    have h := @ServesErr.here serverErrEx (some (.str "page2"))
      (by simp [serverErrEx])
    simpa [serverErrEx] using h
  have herr : ServesErr serverErrEx none 1 503 := by
    apply ServesErr.step
    · simp [serverErrEx]
    · simp [serverErrEx, truthy]
    · simpa [serverErrEx] using h1
  exact ⟨herr, by omega,
    (c5_error_aborts_fetch serverErrEx 1 503 herr 2 (by omega)).1⟩

/-- C7: whenever the upstream cursor sequence is finite (a successful
chain `pages` ending in a falsy cursor), the pagination loop of both
fetchers terminates — fuel equal to the number of pages suffices — and
no iteration cap exists beyond cursor exhaustion: for every `n` there
is a compliant upstream whose chain is longer than `n` pages and whose
fetch still completes successfully. -/
theorem c7_pagination_terminates :
    (∀ (server : Option JVal → PageResponse) (pages : List PageResponse),
      Serves server none pages →
        ∃ r, fetch_accounts_by_item server pages.length = .ok r ∧
          fetch_transactions_by_item server pages.length = .ok r) ∧
    (∀ n : Nat, ∃ (server : Option JVal → PageResponse)
        (pages : List PageResponse),
      Serves server none pages ∧ n < pages.length ∧
        ∃ r, fetch_accounts_by_item server pages.length = .ok r) := by
  constructor
  · intro server pages hserves
    refine ⟨(pages.map PageResponse.results).flatten, ?_, ?_⟩ <;>
      simpa [fetch_accounts_by_item, fetch_transactions_by_item] using
        fetch_loop_serves hserves pages.length [] (le_refl _)
  · intro n
    obtain ⟨pages, hserves, hlen⟩ :=
      countServer_serves n 0 (n + 1) (by omega)
    have h0 : unitCursor 0 = none := by simp [unitCursor]
    rw [h0] at hserves
    refine ⟨countServer (n + 1), pages, hserves, by omega, ?_⟩
    exact ⟨(pages.map PageResponse.results).flatten, by
      simpa [fetch_accounts_by_item] using
        fetch_loop_serves hserves pages.length [] (le_refl _)⟩

/-- Witness for C7: the single-page upstream `countServer 1` serves a
finite chain and the fetch completes with fuel 1. -/
theorem c7_witness :
    ∃ r, fetch_accounts_by_item (countServer 1)
        [countServer 1 none].length = .ok r ∧
      fetch_transactions_by_item (countServer 1)
        [countServer 1 none].length = .ok r := by
  have hs : Serves (countServer 1) none [countServer 1 none] := by
    have h0 : unitCursor 0 = none := by simp [unitCursor]
    have := countServer_serves 0 0 1 (by omega)
    obtain ⟨pages, hserves, hlen⟩ := this
    rw [h0] at hserves
    have : pages = [countServer 1 none] := by
      cases pages with
      | nil => simp at hlen
      | cons p rest =>
        cases rest with
        | nil =>
          cases hserves with
          | last _ h1 h2 => rfl
          | step _ _ h1 h2 h3 => rfl
        | cons q rest2 => simp at hlen
    rw [this] at hserves
    exact hserves
  exact c7_pagination_terminates.1 (countServer 1) [countServer 1 none] hs

/-- C6: with either credential unset (or empty), both
`get_pluggy_access_token` and `create_connect_token` fail with the
configuration `RuntimeError` and issue no network call at all (the
list of outbound requests is empty). -/
theorem c6_missing_credentials_no_network
    (cid csec : Option String)
    (h : strOptTruthy cid = false ∨ strOptTruthy csec = false)
    (post : AuthCall → HttpResponse) (uid : String)
    (post2 : ConnectCall → HttpResponse) :
    get_pluggy_access_token cid csec post =
        ([], .error
          "PLUGGY_CLIENT_ID ou PLUGGY_CLIENT_SECRET não configurados") ∧
      create_connect_token cid csec uid post2 =
        ([], .error
          "PLUGGY_CLIENT_ID ou PLUGGY_CLIENT_SECRET não configurados") := by
  rcases h with h | h <;>
    simp [get_pluggy_access_token, create_connect_token, h]

/-- Witness for C6: with `PLUGGY_CLIENT_ID` unset and a secret present,
both calls fail with the configuration error and an empty request
list, whatever the upstream would have answered. -/
theorem c6_witness :
    get_pluggy_access_token none (some "secret")
        (fun _ => ⟨200, .obj [("accessToken", .str "T")]⟩) =
      ([], .error
        "PLUGGY_CLIENT_ID ou PLUGGY_CLIENT_SECRET não configurados") ∧
      create_connect_token none (some "secret") "user-1"
          (fun _ => ⟨200, .obj [("accessToken", .str "T")]⟩) =
        ([], .error
          "PLUGGY_CLIENT_ID ou PLUGGY_CLIENT_SECRET não configurados") :=
  c6_missing_credentials_no_network none (some "secret")
    (Or.inl rfl) (fun _ => ⟨200, .obj [("accessToken", .str "T")]⟩)
    "user-1" (fun _ => ⟨200, .obj [("accessToken", .str "T")]⟩)

/-- C8: the `/health` endpoint is a total constant function returning
the object `{status: "ok"}` on every invocation. -/
theorem c8_health_always_ok :
    health = JVal.obj [("status", JVal.str "ok")] := rfl

/-- C9: the `connectToken` value of the `/pluggy/connect-token`
response is the payload's `accessToken` field when that field is truthy
and only otherwise the payload's `connectToken` field; on a payload
with neither field the computed value is JSON `null`, which the
declared response model `ConnectTokenResponse` (whose `connectToken`
is a `String`) cannot represent. -/
theorem c9_connect_token_selection :
    (∀ fs : List (String × JVal),
      truthy (lookupField fs "accessToken") = true →
        connectTokenValue (.obj fs) = some (lookupField fs "accessToken")) ∧
    (∀ fs : List (String × JVal),
      truthy (lookupField fs "accessToken") = false →
        connectTokenValue (.obj fs) = some (lookupField fs "connectToken")) ∧
    connectTokenValue (.obj []) = some .null ∧
    (∀ r : ConnectTokenResponse, JVal.str r.connectToken ≠ JVal.null) := by
  refine ⟨?_, ?_, rfl, ?_⟩
  · intro fs h
    simp [connectTokenValue, jget, h]
  · intro fs h
    simp [connectTokenValue, jget, h]
  · intro r h
    cases h

/-- Witness for C9: a payload carrying a truthy `accessToken` yields
exactly that field as the `connectToken` value. -/
theorem c9_witness :
    truthy (lookupField [("accessToken", JVal.str "T")] "accessToken") =
        true ∧
      connectTokenValue (.obj [("accessToken", JVal.str "T")]) =
        some (lookupField [("accessToken", JVal.str "T")] "accessToken") :=
  ⟨by simp [lookupField, truthy],
    c9_connect_token_selection.1 [("accessToken", JVal.str "T")]
      (by simp [lookupField, truthy])⟩

/-- C10: for an account whose `balance` is a truthy JSON object, a
falsy `current` value (such as 0) is skipped in favour of `available`
— field extraction is truthiness-based, not presence-based; in
particular balance `{current: 0, available: 50}` contributes 50. -/
theorem c10_truthy_fallback_current_available :
    (∀ (fs bfs : List (String × JVal)) (a : JVal),
      truthy (JVal.obj bfs) = true →
      truthy (lookupField bfs "current") = false →
      lookupField bfs "available" = a →
      truthy a = true →
      lookupField fs "balance" = JVal.obj bfs →
      accountBalance (.obj fs) = pyFloat a) ∧
    accountBalance (.obj [("balance",
        .obj [("current", .num 0), ("available", .num 50)])]) =
      some 50 := by
  constructor
  · intro fs bfs a hobj hcur hav ha hbal
    simp [accountBalance, jget, hbal, pyOr, hobj, hcur, hav, ha]
  · rfl

/-- Witness for C10: the concrete nested balance
`{current: 0, available: 50}` satisfies all the hypotheses and
contributes `float(50) = 50`. -/
theorem c10_witness :
    accountBalance (.obj [("balance",
        .obj [("current", JVal.num 0), ("available", JVal.num 50)])]) =
      pyFloat (JVal.num 50) :=
  c10_truthy_fallback_current_available.1
    [("balance", .obj [("current", JVal.num 0), ("available", JVal.num 50)])]
    [("current", JVal.num 0), ("available", JVal.num 50)]
    (JVal.num 50) (by simp [truthy]) (by simp [lookupField, truthy])
    (by simp [lookupField]) (by simp [truthy]) (by simp [lookupField])


/-- The JSON `null` value is falsy (`dict.get` misses default to
`None`, which Python treats as false). -/
theorem truthy_null : truthy .null = false := rfl

/-- C2: every snapshot the aggregation builds satisfies
`total_entradas ≥ 0`, `total_saidas ≤ 0` and
`saldo_movimento = total_entradas + total_saidas` exactly; and the
classification step adds a positive amount only to the inflow total, a
negative amount only to the outflow total, and a zero amount to
neither. -/
theorem c2_fluxo_invariants :
    (∀ (u i : String) (accounts txs : List JVal) (snap : Snapshot),
      build_snapshot u i accounts txs = some snap →
        0 ≤ snap.fluxo_geral.total_entradas ∧
        snap.fluxo_geral.total_saidas ≤ 0 ∧
        snap.fluxo_geral.saldo_movimento =
          snap.fluxo_geral.total_entradas +
            snap.fluxo_geral.total_saidas) ∧
    (∀ (es : ℚ × ℚ) (a : ℚ), 0 < a →
      fluxoStep es a = (es.1 + a, es.2)) ∧
    (∀ (es : ℚ × ℚ) (a : ℚ), a < 0 →
      fluxoStep es a = (es.1, es.2 + a)) ∧
    (∀ es : ℚ × ℚ, fluxoStep es 0 = es) := by
  refine ⟨?_, ?_, ?_, ?_⟩
  · intro u i accounts txs snap h
    unfold build_snapshot at h
    revert h
    cases hst : saldoTotal accounts 0 with
    | none => intro h; simp at h
    | some st =>
      cases hfx : fluxoTotais txs (0, 0) with
      | none => intro h; simp at h
      | some es =>
        intro h
        simp only [Option.some.injEq] at h
        have hb := fluxoTotais_bounds txs (0, 0) es hfx
        subst h
        exact ⟨hb.1, hb.2, rfl⟩
  · intro es a h
    simp [fluxoStep, h]
  · intro es a h
    simp [fluxoStep, h, not_lt.mpr (le_of_lt h)]
  · intro es
    simp [fluxoStep]

/-- Witness for C2: the transactions `[{amount: 10}, {amount: -3}]`
build the snapshot `snapEx` with inflow 10, outflow −3 and net
movement 7, and a positive amount moves only the inflow total. -/
theorem c2_witness :
    (0 ≤ snapEx.fluxo_geral.total_entradas ∧
      snapEx.fluxo_geral.total_saidas ≤ 0 ∧
      snapEx.fluxo_geral.saldo_movimento =
        snapEx.fluxo_geral.total_entradas +
          snapEx.fluxo_geral.total_saidas) ∧
      fluxoStep ((0 : ℚ), (0 : ℚ)) 5 = (((0 : ℚ), (0 : ℚ)).1 + 5,
        ((0 : ℚ), (0 : ℚ)).2) :=
  ⟨c2_fluxo_invariants.1 "u" "i" [] txsEx snapEx
      (by norm_num [build_snapshot, saldoTotal, fluxoTotais, txAmount,
        jget, lookupField, pyOr, truthy, pyFloat, fluxoStep, txsEx,
        snapEx]),
    c2_fluxo_invariants.2.1 ((0 : ℚ), (0 : ℚ)) 5 (by norm_num)⟩

/-- Counterexample to C3 as stated: an account whose `balance` is the
truthy non-numeric string `"abc"` does not contribute zero — the
aggregation raises (`float("abc")` is a `ValueError`) and the snapshot
yields no total at all. -/
theorem c3_counterexample :
    build_snapshot "u" "i" [accBadStr] [] = none ∧
      accountBalance accBadStr = none :=
  ⟨rfl, rfl⟩

/-- C3 (amended): when the balance sum succeeds, the total equals the
sum of the coerced per-account balances; an account with a missing or
falsy balance field contributes zero (a truthy non-coercible balance
instead fails the whole snapshot); and the example
`[{balance: 100}, {balance: {current: 50}}]` yields total balance
150. -/
theorem c3_saldo_total_is_sum :
    (∀ (accounts : List JVal) (q : ℚ), saldoTotal accounts 0 = some q →
      q = (accounts.map (fun a => (accountBalance a).getD 0)).sum) ∧
    (∀ fs : List (String × JVal),
      truthy (lookupField fs "balance") = false →
        accountBalance (.obj fs) = some 0) ∧
    saldoTotal [.obj [("balance", .num 100)],
        .obj [("balance", .obj [("current", .num 50)])]] 0 =
      some 150 := by
  refine ⟨?_, ?_, ?_⟩
  · intro accounts q h
    simpa using saldoTotal_sound accounts 0 q h
  · intro fs h
    simp [accountBalance, jget, pyOr, h, lookupField, pyFloat,
      truthy_null]
  · norm_num [saldoTotal, accountBalance, jget, lookupField, pyOr,
      truthy, pyFloat]

/-- Witness for C3 (amended): on the example account list the sum
equality holds with total 150, and the empty account contributes
zero. -/
theorem c3_witness :
    (150 : ℚ) = ([JVal.obj [("balance", JVal.num 100)],
        JVal.obj [("balance", JVal.obj [("current", JVal.num 50)])]].map
        (fun a => (accountBalance a).getD 0)).sum ∧
      accountBalance (.obj []) = some 0 :=
  ⟨c3_saldo_total_is_sum.1
      [JVal.obj [("balance", JVal.num 100)],
        JVal.obj [("balance", JVal.obj [("current", JVal.num 50)])]]
      150
      (by norm_num [saldoTotal, accountBalance, jget, lookupField,
        pyOr, truthy, pyFloat]),
    c3_saldo_total_is_sum.2.1 [] rfl⟩

/-- Counterexample to C4 as stated: on the account list
`[{balance: [1]}]` (a truthy non-numeric balance) the aggregation does
not treat the field as zero — it fails (`float([1])` raises
`TypeError`), so the snapshot rejects this input. -/
theorem c4_counterexample :
    build_snapshot "u" "i" [accBadList] [] = none := rfl

/-- C4 (amended): the aggregation treats missing or falsy balance and
amount fields as zero, but it is not total: it succeeds exactly when
every account's balance and every transaction's amount coercion
succeeds, and a truthy non-coercible field (such as a non-empty list)
makes the whole snapshot fail. -/
theorem c4_zero_default_and_failure :
    (∀ (u i : String) (accounts txs : List JVal),
      (build_snapshot u i accounts txs).isSome = true ↔
        ((∀ a ∈ accounts, (accountBalance a).isSome = true) ∧
          (∀ t ∈ txs, (txAmount t).isSome = true))) ∧
    (∀ fs : List (String × JVal),
      truthy (lookupField fs "amount") = false →
        txAmount (.obj fs) = some 0) ∧
    (∀ fs : List (String × JVal),
      truthy (lookupField fs "balance") = false →
        accountBalance (.obj fs) = some 0) := by
  refine ⟨?_, ?_, ?_⟩
  · intro u i accounts txs
    rw [← saldoTotal_isSome accounts 0, ← fluxoTotais_isSome txs (0, 0)]
    unfold build_snapshot
    cases hst : saldoTotal accounts 0 with
    | none => simp
    | some st =>
      cases hfx : fluxoTotais txs (0, 0) with
      | none => simp
      | some es => simp
  · intro fs h
    simp [txAmount, jget, pyOr, h, pyFloat]
  · intro fs h
    simp [accountBalance, jget, pyOr, h, lookupField, pyFloat,
      truthy_null]

/-- Witness for C4 (amended): with an account and a transaction that
both lack their numeric fields, the snapshot succeeds and the missing
amount is treated as zero. -/
theorem c4_witness :
    (build_snapshot "u" "i" [JVal.obj []] [JVal.obj []]).isSome = true ∧
      txAmount (.obj []) = some 0 :=
  ⟨(c4_zero_default_and_failure.1 "u" "i" [JVal.obj []]
      [JVal.obj []]).mpr
      ⟨by intro a ha; simp at ha; subst ha; rfl,
        by intro t ht; simp at ht; subst ht; rfl⟩,
    c4_zero_default_and_failure.2.1 [] rfl⟩
